import Mathlib

/-!
Verification development for the onboarding screen
`frontend/app/dashboard/page.tsx` of the jobseeker-analytics repository.

The component holds three pieces of React state (`showModal`, `startDate`,
`selectedDate`), an async confirm handler `handleConfirm` that performs two
sequential `fetch` calls and then a `router.replace`, a `DatePicker` change
handler, and a `Dialog` close handler.  We shallowly embed the component as a
state machine: the component state is a structure, user gestures are events,
and the network/navigation side effects of a run are recorded as a trace.

JavaScript semantics modelled faithfully:
  - `await p` inside an async function, where `p` rejects and no try/catch is
    present, throws: the remainder of the function body never runs and the
    rejection is unhandled.  `fetch` rejects on network failure and resolves
    (with any HTTP status) otherwise; the component never reads the status.
  - `JSON.stringify` drops object properties whose value is `undefined`, and
    `selectedDate?.toString()` evaluates to `undefined` when `selectedDate`
    is `null`.
-/

/-- A calendar date as in `@internationalized/date`: year/month/day, no
time-of-day, no timezone. -/
structure CalendarDate where
  year : Nat
  month : Nat
  day : Nat
deriving DecidableEq, Repr

/-- Zero-pad a numeral to width `w`, as ISO date formatting does. -/
def padTo (w : Nat) (n : Nat) : String :=
  let s := Nat.repr n
  String.mk (List.replicate (w - s.length) '0') ++ s

/-- `CalendarDate.toString()` of `@internationalized/date`: the ISO calendar
string `YYYY-MM-DD`. -/
def CalendarDate.toString (d : CalendarDate) : String :=
  padTo 4 d.year ++ "-" ++ padTo 2 d.month ++ "-" ++ padTo 2 d.day

/-- A JavaScript value in a position serialized by `JSON.stringify`; only the
shapes this component produces. -/
inductive JsValue where
  | jsUndefined : JsValue
  | nullV : JsValue
  | str : String → JsValue
deriving DecidableEq, Repr

/-- How `JSON.stringify` renders one property value: `undefined` makes the
property disappear (`none`); our strings need no escaping. -/
def JsValue.renderJson : JsValue → Option String
  | .jsUndefined => none
  | .nullV => some "null"
  | .str s => some ("\"" ++ s ++ "\"")

/-- Comma-join the rendered properties, as `JSON.stringify` does. -/
def joinComma : List String → String
  | [] => ""
  | [x] => x
  | x :: xs => x ++ "," ++ joinComma xs

/-- `JSON.stringify` on an object literal with the given properties, in
source order, dropping `undefined`-valued properties. -/
def stringifyObj (fields : List (String × JsValue)) : String :=
  "\x7b" ++
    joinComma
      (fields.filterMap fun kv =>
        (JsValue.renderJson kv.2).map fun v => "\"" ++ kv.1 ++ "\":" ++ v)
  ++ "\x7d"

/-- The expression `selectedDate?.toString()`: optional chaining yields
`undefined` on `null`, else the ISO string. -/
def optionalDateToString : Option CalendarDate → JsValue
  | some d => .str d.toString
  | none => .jsUndefined

/-- Body of the persist-date request:
`JSON.stringify(\x7b start_date: selectedDate?.toString() \x7d)`. -/
def persistBody (sel : Option CalendarDate) : String :=
  stringifyObj [("start_date", optionalDateToString sel)]

/-- Body of the fetch-emails request:
`JSON.stringify(\x7b user_id: "your_user_id_here" \x7d)`. -/
def fetchEmailsBody : String :=
  stringifyObj [("user_id", JsValue.str "your_user_id_here")]

/-- How one `fetch` promise settles: resolved with some HTTP status, or
rejected (network failure). -/
inductive FetchOutcome where
  | resolve (status : Nat)
  | reject
deriving DecidableEq, Repr

/-- The environment of one confirmation: how each of the two collaborator
endpoints settles its promise. -/
structure Env where
  persistOutcome : FetchOutcome
  fetchOutcome : FetchOutcome
deriving DecidableEq, Repr

/-- Observable side effects of a run: a network call starting, a network call
settling, and navigation.  `navPush` is in the vocabulary so that
replace-not-push is expressible; the component never emits it. -/
inductive NetEvent where
  | callStart (method url body : String)
  | callSettled (url : String) (outcome : FetchOutcome)
  | navReplace (route : String)
  | navPush (route : String)
deriving DecidableEq, Repr

/-- The component's React state: `showModal`, `startDate` (the confirmed
date), `selectedDate` (the picker value). -/
structure ComponentState where
  showModal : Bool
  startDate : Option CalendarDate
  selectedDate : Option CalendarDate
deriving DecidableEq, Repr

/-- `useState` initial values: modal shown, no dates. -/
def initialState : ComponentState := ⟨true, none, none⟩

/-- The async `handleConfirm` handler.  Synchronously: `setStartDate(selectedDate)`
and `setShowModal(false)`.  Then `await fetch("/api/save-start-date", ...)`;
if that promise rejects the `await` throws and the rest of the body never
runs.  Otherwise `await fetch("/api/fetch-emails", ...)`; likewise a
rejection aborts.  Otherwise `router.replace("/processing")`. -/
def handleConfirm (s : ComponentState) (env : Env) :
    ComponentState × List NetEvent :=
  let s1 := { s with startDate := s.selectedDate, showModal := false }
  let t1 := [NetEvent.callStart "POST" "/api/save-start-date"
               (persistBody s.selectedDate),
             NetEvent.callSettled "/api/save-start-date" env.persistOutcome]
  match env.persistOutcome with
  | .reject => (s1, t1)
  | .resolve _ =>
    let t2 := t1 ++ [NetEvent.callStart "POST" "/api/fetch-emails" fetchEmailsBody,
                     NetEvent.callSettled "/api/fetch-emails" env.fetchOutcome]
    match env.fetchOutcome with
    | .reject => (s1, t2)
    | .resolve _ => (s1, t2 ++ [NetEvent.navReplace "/processing"])

/-- The `DatePicker` `onChange` handler: `(date) => setSelectedDate(date)`. -/
def onDateChange (s : ComponentState) (d : CalendarDate) : ComponentState :=
  { s with selectedDate := some d }

/-- The `Dialog` `onClose` handler: `() => setShowModal(false)`. -/
def closeModal (s : ComponentState) : ComponentState :=
  { s with showModal := false }

/-- A user gesture on the screen.  A confirm click carries the environment
that settles the two promises its handler awaits. -/
inductive UserEvent where
  | pickDate (d : CalendarDate)
  | confirmClick (env : Env)
  | dismiss
deriving DecidableEq, Repr

/-- Deliver one gesture.  The picker, the confirm button and the dialog's
close behavior all live inside the `Transition show=\x7bshowModal\x7d`
subtree, so gestures reach a handler only while the modal is shown. -/
def step (s : ComponentState) (e : UserEvent) : ComponentState × List NetEvent :=
  if s.showModal then
    match e with
    | .pickDate d => (onDateChange s d, [])
    | .confirmClick env => handleConfirm s env
    | .dismiss => (closeModal s, [])
  else (s, [])

/-- Deliver a list of gestures, concatenating the side-effect traces. -/
def runEvents : ComponentState → List UserEvent → ComponentState × List NetEvent
  | s, [] => (s, [])
  | s, e :: es =>
    let r1 := step s e
    let r2 := runEvents r1.1 es
    (r2.1, r1.2 ++ r2.2)

/-- A flattened node of the rendered tree.  `loadingIndicator` and
`errorBanner` are in the vocabulary so that their absence is expressible;
the JSX contains neither. -/
inductive UINode where
  | heading (text : String)
  | datePicker (value : Option CalendarDate)
  | confirmButton (label : String)
  | dashboardTitle (text : String)
  | summaryLine (text : String)
  | loadingIndicator
  | errorBanner (msg : String)
deriving DecidableEq, Repr

/-- The JSX of `Dashboard` as a function of the state: the
`Transition show=\x7bshowModal\x7d` dialog subtree (heading, picker bound to
`selectedDate`, confirm button) when the modal is shown, and the
`\x7b!showModal && ...\x7d` dashboard block (title and summary line showing
`startDate` or "Not set") when it is not. -/
def render (s : ComponentState) : List UINode :=
  (if s.showModal then
    [UINode.heading "Please enter the start date of your current job search:",
     UINode.datePicker s.selectedDate,
     UINode.confirmButton "Confirm"]
   else []) ++
  (if s.showModal then []
   else
    [UINode.dashboardTitle "Dashboard",
     UINode.summaryLine ("Your job search start date: " ++
       (match s.startDate with
        | some d => d.toString
        | none => "Not set"))])

/-- Does this event start the fetch-emails call? -/
def isFetchEmailsStart : NetEvent → Bool
  | .callStart _ u _ => u == "/api/fetch-emails"
  | _ => false

/-- Does this event start the persist-date call? -/
def isPersistStart : NetEvent → Bool
  | .callStart _ u _ => u == "/api/save-start-date"
  | _ => false

/-- Does this event settle the persist-date call? -/
def isPersistSettled : NetEvent → Bool
  | .callSettled u _ => u == "/api/save-start-date"
  | _ => false

/-- Does this event settle the fetch-emails call? -/
def isFetchEmailsSettled : NetEvent → Bool
  | .callSettled u _ => u == "/api/fetch-emails"
  | _ => false

/-- Is this event a navigation (replace or push)? -/
def isNav : NetEvent → Bool
  | .navReplace _ => true
  | .navPush _ => true
  | _ => false

/-- Is this event a pushed (not replaced) navigation? -/
def isNavPush : NetEvent → Bool
  | .navPush _ => true
  | _ => false

/-- Number of navigation events in a trace. -/
def countNav (tr : List NetEvent) : Nat := tr.countP fun e => isNav e

/-- Helper for `allPrecededBy`: `seen` records whether an event satisfying
`q` has already occurred. -/
def precAux (p q : NetEvent → Bool) (seen : Bool) : List NetEvent → Bool
  | [] => true
  | e :: r => (!(p e) || seen) && precAux p q (seen || q e) r

/-- Every event satisfying `p` is strictly preceded, in trace order, by some
event satisfying `q`. -/
def allPrecededBy (p q : NetEvent → Bool) (tr : List NetEvent) : Bool :=
  precAux p q false tr

/-- Erase request bodies, keeping the control-flow shape of a trace. -/
def eventShape : NetEvent → NetEvent
  | .callStart m u _ => .callStart m u ""
  | e => e

/-- Number of times the modal-visible flag flips from true to false along a
run. -/
def flipCount : ComponentState → List UserEvent → Nat
  | _, [] => 0
  | s, e :: es =>
    let s1 := (step s e).1
    (if s.showModal && !s1.showModal then 1 else 0) + flipCount s1 es

/-- Extract the body of a fetch-emails call start, if this event is one. -/
def fetchBodyOf : NetEvent → Option String
  | .callStart _ u b => if u == "/api/fetch-emails" then some b else none
  | _ => none

/-- Is this node a loading indicator or an error banner? -/
def isStatusNode : UINode → Bool
  | .loadingIndicator => true
  | .errorBanner _ => true
  | _ => false

example : persistBody (some ⟨2024, 3, 15⟩) = "\x7b\"start_date\":\"2024-03-15\"\x7d" := by
  decide

example : persistBody none = "\x7b\x7d" := by decide

/-- The serialized persist body for a picked date, in closed form. -/
theorem persistBody_some (d : CalendarDate) :
    persistBody (some d) = "\x7b\"start_date\":\"" ++ CalendarDate.toString d ++ "\"\x7d" := by
  apply String.ext
  show ("\x7b" ++ ("\"" ++ "start_date" ++ "\":" ++
    ("\"" ++ CalendarDate.toString d ++ "\"")) ++ "\x7d").data = _
  simp [String.data_append]

/-- The resulting state of the confirm handler does not depend on how the
promises settle: the synchronous state updates always happen. -/
theorem handleConfirm_state (s : ComponentState) (env : Env) :
    (handleConfirm s env).1 = { s with startDate := s.selectedDate, showModal := false } := by
  obtain ⟨po, fo⟩ := env
  cases po <;> cases fo <;> rfl

/-- With the modal hidden, no gesture reaches a handler. -/
theorem step_notShown (sd sel : Option CalendarDate) (e : UserEvent) :
    step ⟨false, sd, sel⟩ e = (⟨false, sd, sel⟩, []) := rfl

/-- Appending gesture lists composes runs and concatenates traces. -/
theorem runEvents_append (s : ComponentState) (es1 es2 : List UserEvent) :
    runEvents s (es1 ++ es2) =
      ((runEvents (runEvents s es1).1 es2).1,
       (runEvents s es1).2 ++ (runEvents (runEvents s es1).1 es2).2) := by
  induction es1 generalizing s with
  | nil => simp [runEvents]
  | cons e es ih => simp [runEvents, ih, List.append_assoc]

/-- A run of pick gestures only folds the picked values into `selectedDate`
and emits no side effects. -/
theorem runPicks (ds : List CalendarDate) (sd sel : Option CalendarDate) :
    runEvents ⟨true, sd, sel⟩ (ds.map UserEvent.pickDate) =
      (⟨true, sd, ds.foldl (fun _ d => some d) sel⟩, []) := by
  induction ds generalizing sel with
  | nil => rfl
  | cons d ds ih => simpa [runEvents, step, onDateChange] using ih (some d)

/-- Folding pick updates over an accumulator keeps the last picked value. -/
theorem foldl_pick (ds : List CalendarDate) :
    ∀ (d : CalendarDate),
      ds.foldl (fun _ x => some x) (some d) = some (ds.getLastD d) := by
  induction ds with
  | nil => intro d; rfl
  | cons e es ih => intro d; simp only [List.foldl_cons, List.getLastD_cons]; exact ih e

/-- Folding pick updates from an empty selection yields the last pick. -/
theorem foldl_pick_none (ds : List CalendarDate) :
    ds.foldl (fun _ x => some x) none = ds.getLast? := by
  cases ds with
  | nil => rfl
  | cons d ds =>
    simp only [List.foldl_cons, List.getLast?_cons, foldl_pick, List.getLastD_eq_getLast?]

/-- Once the modal is hidden, the flag never flips again. -/
theorem flipCount_notShown (sd sel : Option CalendarDate) (es : List UserEvent) :
    flipCount ⟨false, sd, sel⟩ es = 0 := by
  induction es with
  | nil => rfl
  | cons e es ih => simp [flipCount, step_notShown, ih]

/-- Along any run, the modal-visible flag flips from true to false at most
once. -/
theorem flipCount_le_one (s : ComponentState) (es : List UserEvent) :
    flipCount s es ≤ 1 := by
  induction es generalizing s with
  | nil => simp [flipCount]
  | cons e es ih =>
    obtain ⟨sm, sd, sel⟩ := s
    cases sm with
    | false => simp [flipCount, step_notShown, flipCount_notShown]
    | true =>
      simp only [flipCount]
      rcases h : (step ⟨true, sd, sel⟩ e).1 with ⟨sm1, sd1, sel1⟩
      cases sm1 with
      | true => simpa using ih _
      | false => simp [flipCount_notShown]

/-- C1 (counterexample): the claim says a rejection of the persist-date call
does not prevent the fetch-emails call or the navigation.  At a concrete
confirmation whose persist promise rejects, the trace contains no
fetch-emails call start and no navigation: the unhandled `await` rejection
aborts the handler. -/
theorem C1_counterexample :
    (handleConfirm ⟨true, none, some ⟨2024, 3, 15⟩⟩
        ⟨FetchOutcome.reject, FetchOutcome.resolve 200⟩).2.any isFetchEmailsStart = false
    ∧ countNav (handleConfirm ⟨true, none, some ⟨2024, 3, 15⟩⟩
        ⟨FetchOutcome.reject, FetchOutcome.resolve 200⟩).2 = 0 := by decide

/-- C1 (amended): after the confirm gesture the state updates (modal closed,
date confirmed) and the persist-date call always happen; if the persist call
resolves — with any HTTP status — the fetch-emails call is issued; but if the
persist call rejects, the fetch-emails call is not issued and no navigation
occurs, and if the fetch-emails call rejects, no navigation occurs.
Navigation happens exactly when both calls resolve. -/
theorem C1_amended :
    (∀ (sel sd : Option CalendarDate) (env : Env),
        (handleConfirm ⟨true, sd, sel⟩ env).1.showModal = false
      ∧ (handleConfirm ⟨true, sd, sel⟩ env).1.startDate = sel
      ∧ (handleConfirm ⟨true, sd, sel⟩ env).2.any isPersistStart = true)
  ∧ (∀ (sel sd : Option CalendarDate) (ps : Nat) (fo : FetchOutcome),
        (handleConfirm ⟨true, sd, sel⟩
          ⟨FetchOutcome.resolve ps, fo⟩).2.any isFetchEmailsStart = true)
  ∧ (∀ (sel sd : Option CalendarDate) (fo : FetchOutcome),
        (handleConfirm ⟨true, sd, sel⟩
          ⟨FetchOutcome.reject, fo⟩).2.any isFetchEmailsStart = false
      ∧ countNav (handleConfirm ⟨true, sd, sel⟩ ⟨FetchOutcome.reject, fo⟩).2 = 0)
  ∧ (∀ (sel sd : Option CalendarDate) (ps fs : Nat),
        countNav (handleConfirm ⟨true, sd, sel⟩
          ⟨FetchOutcome.resolve ps, FetchOutcome.resolve fs⟩).2 = 1)
  ∧ (∀ (sel sd : Option CalendarDate) (ps : Nat),
        countNav (handleConfirm ⟨true, sd, sel⟩
          ⟨FetchOutcome.resolve ps, FetchOutcome.reject⟩).2 = 0) := by
  refine ⟨fun sel sd env => ?_, fun sel sd ps fo => ?_, fun sel sd fo => ⟨rfl, rfl⟩,
    fun sel sd ps fs => rfl, fun sel sd ps => rfl⟩
  · obtain ⟨po, fo⟩ := env
    cases po <;> cases fo <;> exact ⟨rfl, rfl, rfl⟩
  · cases fo <;> rfl

/-- C2 (confirmed): in every execution of the confirmation workflow, every
start of the fetch-emails call is strictly preceded in the trace by a
settlement of the persist-date call. -/
theorem C2_fetch_after_persist_settles (s : ComponentState) (env : Env) :
    allPrecededBy isFetchEmailsStart isPersistSettled (handleConfirm s env).2 = true := by
  obtain ⟨po, fo⟩ := env
  cases po <;> cases fo <;> rfl

/-- C2 witness: the ordering holds on a concrete confirmation. -/
theorem C2_witness :
    allPrecededBy isFetchEmailsStart isPersistSettled
      (handleConfirm initialState
        ⟨FetchOutcome.resolve 200, FetchOutcome.resolve 200⟩).2 = true :=
  C2_fetch_after_persist_settles initialState
    ⟨FetchOutcome.resolve 200, FetchOutcome.resolve 200⟩

/-- C3 (counterexample): the claim says that with no date picked, the persist
body is the object with key `start_date` present and `null`.  In fact
`JSON.stringify` drops the `undefined`-valued property produced by
`selectedDate?.toString()`: the body is the empty object, which differs from
the claimed body. -/
theorem C3_counterexample :
    (handleConfirm initialState
        ⟨FetchOutcome.resolve 200, FetchOutcome.resolve 200⟩).2.head? =
      some (NetEvent.callStart "POST" "/api/save-start-date" "\x7b\x7d")
    ∧ "\x7b\x7d" ≠ "\x7b\"start_date\":null\x7d" := by decide

/-- C3 (amended): the persist-date request is a POST and its first trace
event carries a JSON body with the confirmed date serialized as an ISO
calendar string when a date is set; when no date was picked the `start_date`
key is omitted entirely (the body is the empty object), not present with
value `null`. -/
theorem C3_amended :
    (∀ (d : CalendarDate) (sd : Option CalendarDate) (env : Env),
        (handleConfirm ⟨true, sd, some d⟩ env).2.head? =
          some (NetEvent.callStart "POST" "/api/save-start-date"
            ("\x7b\"start_date\":\"" ++ CalendarDate.toString d ++ "\"\x7d")))
  ∧ (∀ (sd : Option CalendarDate) (env : Env),
        (handleConfirm ⟨true, sd, none⟩ env).2.head? =
          some (NetEvent.callStart "POST" "/api/save-start-date" "\x7b\x7d")) := by
  constructor
  · intro d sd env
    obtain ⟨po, fo⟩ := env
    cases po <;> cases fo <;> simp [handleConfirm, persistBody_some]
  · intro sd env
    obtain ⟨po, fo⟩ := env
    cases po <;> cases fo <;> rfl

/-- C4 (counterexample): the claim says no event other than the confirm
gesture sets ModalVisible to false.  Dismissing the dialog (its `onClose`
handler) from the initial state sets the flag to false, runs no confirmation
workflow (empty side-effect trace), and is not a confirm gesture. -/
theorem C4_counterexample :
    (step initialState UserEvent.dismiss).1.showModal = false
    ∧ (step initialState UserEvent.dismiss).2 = []
    ∧ UserEvent.dismiss ≠
        UserEvent.confirmClick ⟨FetchOutcome.resolve 200, FetchOutcome.resolve 200⟩ := by
  decide

/-- C4 (amended): ModalVisible starts true; once false it never becomes true
again; among the gestures deliverable while the modal is shown, picking a
date keeps the flag true while both the confirm gesture and the dialog's
dismiss gesture set it false (not the confirm gesture alone); and along any
run the flag flips from true to false at most once. -/
theorem C4_amended :
    initialState.showModal = true
  ∧ (∀ (sd sel : Option CalendarDate) (e : UserEvent),
      (step ⟨false, sd, sel⟩ e).1.showModal = false)
  ∧ (∀ (sd sel : Option CalendarDate) (d : CalendarDate),
      (step ⟨true, sd, sel⟩ (UserEvent.pickDate d)).1.showModal = true)
  ∧ (∀ (sd sel : Option CalendarDate) (env : Env),
      (step ⟨true, sd, sel⟩ (UserEvent.confirmClick env)).1.showModal = false)
  ∧ (∀ (sd sel : Option CalendarDate),
      (step ⟨true, sd, sel⟩ UserEvent.dismiss).1.showModal = false)
  ∧ (∀ (s : ComponentState) (es : List UserEvent), flipCount s es ≤ 1) := by
  refine ⟨rfl, fun sd sel e => rfl, fun sd sel d => rfl, fun sd sel env => ?_,
    fun sd sel => rfl, fun s es => flipCount_le_one s es⟩
  obtain ⟨po, fo⟩ := env
  cases po <;> cases fo <;> rfl

/-- C5 (confirmed): after any sequence of date-control changes followed by a
confirm gesture, the confirmed date equals the last value passed to the
change callback (absent if none); and the change handler never touches the
confirmed date or the modal flag, so no later change can alter the
snapshot. -/
theorem C5_confirmed_date_snapshot :
    (∀ (ds : List CalendarDate) (env : Env),
        (runEvents initialState
          (ds.map UserEvent.pickDate ++ [UserEvent.confirmClick env])).1.startDate
          = ds.getLast?)
  ∧ (∀ (s : ComponentState) (d : CalendarDate),
        (onDateChange s d).startDate = s.startDate
      ∧ (onDateChange s d).showModal = s.showModal) := by
  constructor
  · intro ds env
    rw [runEvents_append, show initialState = (⟨true, none, none⟩ : ComponentState) from rfl,
      runPicks]
    show (handleConfirm ⟨true, none, ds.foldl (fun _ d => some d) none⟩ env).1.startDate = _
    rw [handleConfirm_state]
    exact foldl_pick_none ds
  · exact fun s d => ⟨rfl, rfl⟩

/-- C6 (confirmed): the confirm gesture has no guard on the picked date: for
every value of the picker, including unset, the click runs the workflow,
which snapshots the date, closes the modal and issues the persist call, and
the control flow of the run does not depend on the picked date; when the
calls resolve, both network calls appear in the trace and navigation
happens. -/
theorem C6_no_guard :
    (∀ (sel sd : Option CalendarDate) (env : Env),
        step ⟨true, sd, sel⟩ (UserEvent.confirmClick env) = handleConfirm ⟨true, sd, sel⟩ env
      ∧ (step ⟨true, sd, sel⟩ (UserEvent.confirmClick env)).1.startDate = sel
      ∧ (step ⟨true, sd, sel⟩ (UserEvent.confirmClick env)).1.showModal = false
      ∧ (step ⟨true, sd, sel⟩ (UserEvent.confirmClick env)).2.any isPersistStart = true
      ∧ (handleConfirm ⟨true, sd, sel⟩ env).2.map eventShape =
          (handleConfirm ⟨true, sd, none⟩ env).2.map eventShape)
  ∧ (∀ (sel sd : Option CalendarDate) (ps fs : Nat),
        (handleConfirm ⟨true, sd, sel⟩
          ⟨FetchOutcome.resolve ps, FetchOutcome.resolve fs⟩).2.any isFetchEmailsStart = true
      ∧ countNav (handleConfirm ⟨true, sd, sel⟩
          ⟨FetchOutcome.resolve ps, FetchOutcome.resolve fs⟩).2 = 1) := by
  constructor
  · intro sel sd env
    obtain ⟨po, fo⟩ := env
    cases po <;> cases fo <;> exact ⟨rfl, rfl, rfl, rfl, rfl⟩
  · exact fun sel sd ps fs => ⟨rfl, rfl⟩

/-- C7 (counterexample): the claim says navigation occurs exactly once per
confirmation even when a call rejects.  At a concrete confirmation whose
fetch-emails promise rejects, no navigation occurs at all. -/
theorem C7_counterexample :
    countNav (handleConfirm ⟨true, none, some ⟨2025, 1, 2⟩⟩
      ⟨FetchOutcome.resolve 200, FetchOutcome.reject⟩).2 = 0 := by decide

/-- C7 (amended): when both calls resolve, navigation occurs exactly once,
as the last trace event, after the settlement of each call, and it is a
history replace; the workflow never performs a pushed navigation; and when
either call rejects, no navigation occurs. -/
theorem C7_amended :
    (∀ (sel sd : Option CalendarDate) (ps fs : Nat),
        countNav (handleConfirm ⟨true, sd, sel⟩
          ⟨FetchOutcome.resolve ps, FetchOutcome.resolve fs⟩).2 = 1
      ∧ (handleConfirm ⟨true, sd, sel⟩
          ⟨FetchOutcome.resolve ps, FetchOutcome.resolve fs⟩).2.getLast? =
          some (NetEvent.navReplace "/processing")
      ∧ allPrecededBy isNav isPersistSettled
          (handleConfirm ⟨true, sd, sel⟩
            ⟨FetchOutcome.resolve ps, FetchOutcome.resolve fs⟩).2 = true
      ∧ allPrecededBy isNav isFetchEmailsSettled
          (handleConfirm ⟨true, sd, sel⟩
            ⟨FetchOutcome.resolve ps, FetchOutcome.resolve fs⟩).2 = true)
  ∧ (∀ (s : ComponentState) (env : Env),
        (handleConfirm s env).2.countP (fun e => isNavPush e) = 0)
  ∧ (∀ (sel sd : Option CalendarDate) (fo : FetchOutcome),
        countNav (handleConfirm ⟨true, sd, sel⟩ ⟨FetchOutcome.reject, fo⟩).2 = 0)
  ∧ (∀ (sel sd : Option CalendarDate) (ps : Nat),
        countNav (handleConfirm ⟨true, sd, sel⟩
          ⟨FetchOutcome.resolve ps, FetchOutcome.reject⟩).2 = 0) := by
  refine ⟨fun sel sd ps fs => ⟨rfl, rfl, rfl, rfl⟩, fun s env => ?_,
    fun sel sd fo => rfl, fun sel sd ps => rfl⟩
  obtain ⟨po, fo⟩ := env
  cases po <;> cases fo <;> rfl

/-- C8 (confirmed): the rendered tree is a function of the three state
fields; with the modal shown it is the date-entry dialog (heading, picker
bound to the picked date, confirm button, whose click runs the workflow);
with the modal hidden it is the dashboard summary showing the confirmed date
as a calendar string, or the "Not set" placeholder when absent; and no
loading or error node is ever rendered. -/
theorem C8_render_pure :
    (∀ (sd sel : Option CalendarDate),
        render ⟨true, sd, sel⟩ =
          [UINode.heading "Please enter the start date of your current job search:",
           UINode.datePicker sel,
           UINode.confirmButton "Confirm"])
  ∧ (∀ (sel : Option CalendarDate) (d : CalendarDate),
        render ⟨false, some d, sel⟩ =
          [UINode.dashboardTitle "Dashboard",
           UINode.summaryLine ("Your job search start date: " ++ CalendarDate.toString d)])
  ∧ (∀ (sel : Option CalendarDate),
        render ⟨false, none, sel⟩ =
          [UINode.dashboardTitle "Dashboard",
           UINode.summaryLine "Your job search start date: Not set"])
  ∧ (∀ (sd sel : Option CalendarDate) (env : Env),
        step ⟨true, sd, sel⟩ (UserEvent.confirmClick env) = handleConfirm ⟨true, sd, sel⟩ env)
  ∧ (∀ (s : ComponentState),
        (render s).all (fun n => !(isStatusNode n)) = true) := by
  refine ⟨fun sd sel => rfl, fun sel d => rfl, fun sel => rfl, fun sd sel env => rfl,
    fun s => ?_⟩
  obtain ⟨sm, sd, sel⟩ := s
  cases sm <;> cases sd <;> rfl

/-- C9 (confirmed): dismissing the dialog via its close gesture sets
ModalVisible to false, leaves both dates unchanged, issues no network call
and performs no navigation; after any picks followed by a dismiss from the
initial state, the dashboard renders with the "Not set" placeholder, since
no confirmation ever set the confirmed date. -/
theorem C9_dismiss_frame :
    (∀ (sd sel : Option CalendarDate),
        step ⟨true, sd, sel⟩ UserEvent.dismiss = (⟨false, sd, sel⟩, []))
  ∧ (∀ (ds : List CalendarDate),
        (runEvents initialState (ds.map UserEvent.pickDate ++ [UserEvent.dismiss])).1 =
          ⟨false, none, ds.getLast?⟩
      ∧ (runEvents initialState (ds.map UserEvent.pickDate ++ [UserEvent.dismiss])).2 = []
      ∧ UINode.summaryLine "Your job search start date: Not set" ∈
          render (runEvents initialState
            (ds.map UserEvent.pickDate ++ [UserEvent.dismiss])).1) := by
  refine ⟨fun sd sel => rfl, fun ds => ?_⟩
  rw [runEvents_append, show initialState = (⟨true, none, none⟩ : ComponentState) from rfl,
    runPicks, foldl_pick_none]
  exact ⟨rfl, rfl, by simp [render, runEvents, step, closeModal]⟩

/-- C10 (confirmed): the fetch-emails request body does not depend on the
picked date — the trace's fetch-emails bodies are identical to those of the
same confirmation with no date picked — and every fetch-emails body is the
constant object with the hard-coded placeholder user id. -/
theorem C10_fetch_body_constant :
    (∀ (sel sd : Option CalendarDate) (env : Env),
        (handleConfirm ⟨true, sd, sel⟩ env).2.filterMap fetchBodyOf =
          (handleConfirm ⟨true, sd, none⟩ env).2.filterMap fetchBodyOf)
  ∧ (∀ (s : ComponentState) (env : Env),
        ((handleConfirm s env).2.filterMap fetchBodyOf).all
          (fun b => b == "\x7b\"user_id\":\"your_user_id_here\"\x7d") = true) := by
  constructor
  · intro sel sd env
    obtain ⟨po, fo⟩ := env
    cases po <;> cases fo <;> rfl
  · intro s env
    obtain ⟨po, fo⟩ := env
    cases po <;> cases fo <;> rfl
